import Mathlib

/-!
Shallow embedding of `src/Image_Recognise.py` (an image-recognition front end:
image normalization, a detection HTTP client, and a tolerant result extractor),
together with proofs of the specification claims about it.

Python values decoded from JSON are modelled by `JValue`; `json.loads` is
modelled by `jsonLoads`, a recursive-descent parser following the stdlib
`json` grammar (strict leading-zero rule, optional fraction/exponent groups
that leave their text unconsumed when incomplete, strict rejection of raw
control characters in strings, `NaN`/`Infinity`/`-Infinity` constants, and
duplicate object keys resolved as Python `dict` does: first position, last
value).
-/

/-- A Python value decodable from JSON. `jfloat m s` denotes the decimal
`m * 10 ^ (-s)` (so `0.8` is `jfloat 8 1`); ints and floats are kept apart as
Python keeps them apart. `jnan` and `jinf` model the non-finite float
constants the stdlib decoder accepts. -/
inductive JValue where
  | jnull
  | jbool (b : Bool)
  | jint (n : Int)
  | jfloat (mantissa : Int) (scale : Int)
  | jnan
  | jinf (neg : Bool)
  | jstr (s : String)
  | jarr (elems : List JValue)
  | jobj (fields : List (String × JValue))

/-- JSON whitespace, as in the stdlib decoder: space, tab, newline, return. -/
def isJsonWs (c : Char) : Bool :=
  c = ' ' || c = '\t' || c = '\n' || c = '\r'

/-- Drop leading JSON whitespace. -/
def skipWs : List Char → List Char
  | c :: cs => if isJsonWs c then skipWs cs else c :: cs
  | [] => []

/-- Numeric value of a decimal digit character. -/
def digitVal (c : Char) : Nat := c.toNat - 48

/-- Split off a maximal run of decimal digits. -/
def takeDigits : List Char → List Nat × List Char
  | c :: cs =>
    if c.isDigit then
      let (ds, r) := takeDigits cs
      (digitVal c :: ds, r)
    else ([], c :: cs)
  | [] => ([], [])

/-- Value of a digit run read in base 10. -/
def digitsToNat (ds : List Nat) : Nat :=
  ds.foldl (fun acc d => acc * 10 + d) 0

/-- Value of a hexadecimal digit character, if it is one. -/
def hexVal (c : Char) : Option Nat :=
  if c.isDigit then some (c.toNat - 48)
  else if 'a' ≤ c && c ≤ 'f' then some (c.toNat - 87)
  else if 'A' ≤ c && c ≤ 'F' then some (c.toNat - 55)
  else none

/-- The double-quote character. -/
def quoteCh : Char := Char.ofNat 34

/-- The backslash character. -/
def backslashCh : Char := Char.ofNat 92

/-- Parse the body of a JSON string after the opening quote, strict mode:
raw control characters below U+0020 are rejected, escapes are the stdlib
set, and `\uXXXX` surrogate pairs are combined as the stdlib decoder
combines them. Returns the decoded characters and the input after the
closing quote. -/
def parseStrBody : Nat → List Char → Option (List Char × List Char)
  | 0, _ => none
  | Nat.succ _, [] => none
  | Nat.succ fuel, c :: cs =>
    if c = quoteCh then some ([], cs)
    else if c = backslashCh then
      match cs with
      | [] => none
      | e :: cs2 =>
        if e = quoteCh || e = backslashCh || e = '/' then
          (parseStrBody fuel cs2).map (fun p => (e :: p.1, p.2))
        else if e = 'b' then
          (parseStrBody fuel cs2).map (fun p => (Char.ofNat 8 :: p.1, p.2))
        else if e = 'f' then
          (parseStrBody fuel cs2).map (fun p => (Char.ofNat 12 :: p.1, p.2))
        else if e = 'n' then
          (parseStrBody fuel cs2).map (fun p => ('\n' :: p.1, p.2))
        else if e = 'r' then
          (parseStrBody fuel cs2).map (fun p => ('\r' :: p.1, p.2))
        else if e = 't' then
          (parseStrBody fuel cs2).map (fun p => ('\t' :: p.1, p.2))
        else if e = 'u' then
          match cs2 with
          | h1 :: h2 :: h3 :: h4 :: cs3 =>
            match hexVal h1, hexVal h2, hexVal h3, hexVal h4 with
            | some v1, some v2, some v3, some v4 =>
              let code := ((v1 * 16 + v2) * 16 + v3) * 16 + v4
              if 0xD800 ≤ code && code ≤ 0xDBFF then
                match cs3 with
                | b0 :: u :: g1 :: g2 :: g3 :: g4 :: cs4 =>
                  if b0 = backslashCh && u = 'u' then
                    match hexVal g1, hexVal g2, hexVal g3, hexVal g4 with
                    | some w1, some w2, some w3, some w4 =>
                      let lo := ((w1 * 16 + w2) * 16 + w3) * 16 + w4
                      if 0xDC00 ≤ lo && lo ≤ 0xDFFF then
                        let combined :=
                          0x10000 + (code - 0xD800) * 0x400 + (lo - 0xDC00)
                        (parseStrBody fuel cs4).map
                          (fun p => (Char.ofNat combined :: p.1, p.2))
                      else
                        (parseStrBody fuel cs3).map
                          (fun p => (Char.ofNat code :: p.1, p.2))
                    | _, _, _, _ =>
                      (parseStrBody fuel cs3).map
                        (fun p => (Char.ofNat code :: p.1, p.2))
                  else
                    (parseStrBody fuel cs3).map
                      (fun p => (Char.ofNat code :: p.1, p.2))
                | _ =>
                  (parseStrBody fuel cs3).map
                    (fun p => (Char.ofNat code :: p.1, p.2))
              else
                (parseStrBody fuel cs3).map (fun p => (Char.ofNat code :: p.1, p.2))
            | _, _, _, _ => none
          | _ => none
        else none
    else if c.toNat < 32 then none
    else (parseStrBody fuel cs).map (fun p => (c :: p.1, p.2))

/-- Parse a JSON number starting at the current position, following the
stdlib number pattern: an integer part `0` or `[1-9][0-9]*` with optional
sign, then an optional `.digits` group and an optional exponent group; an
incomplete optional group (a dot or an `e` not followed by digits) is left
unconsumed, exactly as a regex optional group leaves it. -/
def parseNumber (cs : List Char) : Option (JValue × List Char) :=
  let (neg, cs1) :=
    match cs with
    | c :: t => if c = '-' then (true, t) else (false, cs)
    | [] => (false, ([] : List Char))
  match cs1 with
  | [] => none
  | c :: t =>
    if ¬ c.isDigit then none
    else
      let (intDs, rest) :=
        if c = '0' then ([0], t)
        else
          let (ds, r) := takeDigits t
          (digitVal c :: ds, r)
      let (fracDs, rest2) :=
        match rest with
        | d :: r =>
          if d = '.' then
            let (fds, r2) := takeDigits r
            if fds.isEmpty then (([] : List Nat), rest) else (fds, r2)
          else (([] : List Nat), rest)
        | [] => (([] : List Nat), rest)
      let (hasExp, expVal, rest3) :=
        match rest2 with
        | e :: r =>
          if e = 'e' || e = 'E' then
            let (esign, r1) :=
              match r with
              | s :: r2 =>
                if s = '+' then ((1 : Int), r2)
                else if s = '-' then ((-1 : Int), r2)
                else ((1 : Int), r)
              | [] => ((1 : Int), r)
            let (eds, r3) := takeDigits r1
            if eds.isEmpty then (false, (0 : Int), rest2)
            else (true, esign * (digitsToNat eds : Int), r3)
          else (false, (0 : Int), rest2)
        | [] => (false, (0 : Int), rest2)
      if fracDs.isEmpty && ¬ hasExp then
        let v : Int := (digitsToNat intDs : Int)
        some (JValue.jint (if neg then -v else v), rest)
      else
        let m : Int := (digitsToNat (intDs ++ fracDs) : Int)
        some (JValue.jfloat (if neg then -m else m)
          ((fracDs.length : Int) - expVal), rest3)

/-- First value for a key in an association list, as `dict` lookup. -/
def dictFind (fields : List (String × JValue)) (key : String) : Option JValue :=
  match fields with
  | [] => none
  | (k, v) :: rest => if k = key then some v else dictFind rest key

/-- Insert a key into an association list as Python `dict` assignment does:
an existing key keeps its position and takes the new value, a new key goes
to the end. -/
def objInsert (fields : List (String × JValue)) (key : String) (v : JValue) :
    List (String × JValue) :=
  match fields with
  | [] => [(key, v)]
  | (k, w) :: rest =>
    if k = key then (k, v) :: rest else (k, w) :: objInsert rest key v

/-- Fold a parsed member list into `dict` construction order. -/
def buildObj (pairs : List (String × JValue)) : List (String × JValue) :=
  pairs.foldl (fun acc kv => objInsert acc kv.1 kv.2) []

mutual

/-- Parse one JSON value (leading whitespace allowed), with fuel for
termination. Mirrors the stdlib scanner's dispatch on the first
non-whitespace character. -/
def parseVal : Nat → List Char → Option (JValue × List Char)
  | 0, _ => none
  | Nat.succ fuel, cs =>
    match skipWs cs with
    | [] => none
    | c :: rest =>
      if c = quoteCh then
        (parseStrBody (rest.length + 1) rest).map
          (fun p => (JValue.jstr (String.mk p.1), p.2))
      else if c = Char.ofNat 123 then
        match skipWs rest with
        | [] => none
        | d :: rest2 =>
          if d = Char.ofNat 125 then some (JValue.jobj [], rest2)
          else
            (parseMembers fuel (d :: rest2)).map
              (fun p => (JValue.jobj (buildObj p.1), p.2))
      else if c = '[' then
        match skipWs rest with
        | [] => none
        | d :: rest2 =>
          if d = ']' then some (JValue.jarr [], rest2)
          else
            (parseElems fuel (d :: rest2)).map
              (fun p => (JValue.jarr p.1, p.2))
      else
        match c :: rest with
        | 'n' :: 'u' :: 'l' :: 'l' :: r => some (JValue.jnull, r)
        | 't' :: 'r' :: 'u' :: 'e' :: r => some (JValue.jbool true, r)
        | 'f' :: 'a' :: 'l' :: 's' :: 'e' :: r => some (JValue.jbool false, r)
        | 'N' :: 'a' :: 'N' :: r => some (JValue.jnan, r)
        | 'I' :: 'n' :: 'f' :: 'i' :: 'n' :: 'i' :: 't' :: 'y' :: r =>
          some (JValue.jinf false, r)
        | '-' :: 'I' :: 'n' :: 'f' :: 'i' :: 'n' :: 'i' :: 't' :: 'y' :: r =>
          some (JValue.jinf true, r)
        | other => parseNumber other

/-- Parse one or more comma-separated array elements; the closing bracket
is consumed here, and a value is required after every comma. -/
def parseElems : Nat → List Char → Option (List JValue × List Char)
  | 0, _ => none
  | Nat.succ fuel, cs =>
    match parseVal fuel cs with
    | none => none
    | some (v, r) =>
      match skipWs r with
      | c :: r2 =>
        if c = ',' then
          (parseElems fuel r2).map (fun p => (v :: p.1, p.2))
        else if c = ']' then some ([v], r2)
        else none
      | [] => none

/-- Parse one or more comma-separated object members; keys must be strings
and the closing brace is consumed here. -/
def parseMembers : Nat → List Char → Option (List (String × JValue) × List Char)
  | 0, _ => none
  | Nat.succ fuel, cs =>
    match skipWs cs with
    | c :: r =>
      if c = quoteCh then
        match parseStrBody (r.length + 1) r with
        | none => none
        | some (keyChars, r1) =>
          match skipWs r1 with
          | d :: r2 =>
            if d = ':' then
              match parseVal fuel r2 with
              | none => none
              | some (v, r3) =>
                match skipWs r3 with
                | e :: r4 =>
                  if e = ',' then
                    (parseMembers fuel r4).map
                      (fun p => ((String.mk keyChars, v) :: p.1, p.2))
                  else if e = Char.ofNat 125 then
                    some ([(String.mk keyChars, v)], r4)
                  else none
                | [] => none
            else none
          | [] => none
      else none
    | [] => none

end

/-- Model of Python `json.loads`: parse one document and require that only
whitespace follows it. -/
def jsonLoads (s : String) : Option JValue :=
  let cs := s.data
  match parseVal (2 * cs.length + 4) cs with
  | some (v, rest) => if skipWs rest = [] then some v else none
  | none => none

/-!
Model of `re.search` for the one pattern the source compiles, with DOTALL:
three backticks, the letters of the json tag, a newline, a non-greedy
capture over any characters, a newline, three backticks. Leftmost match
wins and the capture is the shortest one: equivalently, the capture runs
from just after the first occurrence of the opening text to just before
the first following occurrence of the closing text.
-/

/-- The backtick character. -/
def backtickCh : Char := Char.ofNat 96

/-- Characters of the opening fence text of the pattern. -/
def openFence : List Char :=
  [backtickCh, backtickCh, backtickCh, 'j', 's', 'o', 'n', '\n']

/-- Characters of the closing fence text of the pattern. -/
def closeFence : List Char :=
  ['\n', backtickCh, backtickCh, backtickCh]

/-- Input remaining after the first occurrence of `pat`, if any. -/
def dropAfterFirst (pat : List Char) : List Char → Option (List Char)
  | [] => if pat.isEmpty then some [] else none
  | c :: t =>
    if pat.isPrefixOf (c :: t) then some ((c :: t).drop pat.length)
    else dropAfterFirst pat t

/-- Characters strictly before the first occurrence of `pat`, if any. -/
def takeUntilPat (pat : List Char) : List Char → Option (List Char)
  | [] => if pat.isEmpty then some [] else none
  | c :: t =>
    if pat.isPrefixOf (c :: t) then some []
    else (takeUntilPat pat t).map (fun l => c :: l)

/-- The captured group of the source's fenced-json search on `s`, if the
pattern matches anywhere in `s`. -/
def findFencedJson (s : String) : Option String :=
  match dropAfterFirst openFence s.data with
  | none => none
  | some rest => (takeUntilPat closeFence rest).map (fun l => String.mk l)

/-!
Model of `extract_detected_objects` (source lines 101-123). Python
attribute and type errors inside the body are modelled as `Except.error`;
the trailing broad except clause of the source catches them all and
returns the empty list, and the inner bare except of the fallback branch
catches failures of that branch alone.
-/

/-- Python `value.get(key, default)`: succeeds only on a dict; on any other
value the attribute lookup raises. -/
def pyDictGet (v : JValue) (key : String) (dflt : JValue) :
    Except String JValue :=
  match v with
  | JValue.jobj fields => Except.ok ((dictFind fields key).getD dflt)
  | _ => Except.error "AttributeError"

/-- The fenced branch (source lines 109-112): parse the captured body, then
read the detected objects field with an empty-list default; a parse failure
or a lookup on a non-dict raises out of the branch. -/
def fencedBranch (body : String) : Except String JValue :=
  match jsonLoads body with
  | some data => pyDictGet data "detected_objects" (JValue.jarr [])
  | none => Except.error "JSONDecodeError"

/-- The fallback branch (source lines 113-119): parse the whole output
string, read the field with an empty-list default, and let the inner bare
except turn any failure of this branch into an empty list. -/
def fallbackBranch (s : String) : Except String JValue :=
  match jsonLoads s with
  | some data =>
    match pyDictGet data "detected_objects" (JValue.jarr []) with
    | Except.ok r => Except.ok r
    | Except.error _ => Except.ok (JValue.jarr [])
  | none => Except.ok (JValue.jarr [])

/-- Dispatch on the output value (source lines 107-119): the regex search
raises a type error on a non-string, else the fenced branch applies when
the pattern matches and the fallback branch otherwise. -/
def extractFromOutput (output : JValue) : Except String JValue :=
  match output with
  | JValue.jstr s =>
    match findFencedJson s with
    | some body => fencedBranch body
    | none => fallbackBranch s
  | _ => Except.error "TypeError"

/-- Body of the extractor inside the outer try (source lines 104-120):
a non-list or empty-list response returns an empty list; otherwise the
first element's output field is read (empty-string default; attribute
error on a non-dict element) and handed to the output dispatch. -/
def extractInner (resp : JValue) : Except String JValue :=
  match resp with
  | JValue.jarr (first :: _) =>
    match pyDictGet first "output" (JValue.jstr "") with
    | Except.ok output => extractFromOutput output
    | Except.error e => Except.error e
  | _ => Except.ok (JValue.jarr [])

/-- The extractor with its outer catch-all (source lines 101-123): every
internal failure degrades to the empty list. -/
def extract_detected_objects (resp : JValue) : JValue :=
  match extractInner resp with
  | Except.ok r => r
  | Except.error _ => JValue.jarr []

/-- Whether a value is a non-empty list, the shape the extractor requires
of the response (source line 104). -/
def isNonEmptyArr : JValue → Bool
  | JValue.jarr (_ :: _) => true
  | _ => false

/-- Whether a value is a string. -/
def isStr : JValue → Bool
  | JValue.jstr _ => true
  | _ => false

/-!
Model of `call_n8n_api` (source lines 79-99). The single network attempt
is an oracle stream of transport outcomes of which the client consumes
exactly the first. Raised exceptions carry the class facts the two except
clauses test: membership in the requests exception family and in the json
decode-error family. Since requests 2.27 the decode error raised by the
response-body json accessor is also a requests exception, so the flag
`modernRequests` records which library era is modelled; the transport
exceptions are requests exceptions in every era.
-/

/-- An exception, reduced to the class facts the except clauses test plus
its message. -/
structure PyExc where
  isRequestExc : Bool
  isJSONDecodeExc : Bool
  msg : String

/-- A connection-level failure (connection refused, DNS failure):
a requests exception. -/
def connectionExc (m : String) : PyExc := ⟨true, false, m⟩

/-- A timeout after the fixed request timeout: a requests exception. -/
def timeoutExc (m : String) : PyExc := ⟨true, false, m⟩

/-- The message of the status error raised for a non-2xx response. -/
def httpStatusExcMsg (status : Nat) : String :=
  "HTTP error for status " ++ toString status

/-- The status error `raise_for_status` raises: a requests exception. -/
def httpExc (status : Nat) : PyExc := ⟨true, false, httpStatusExcMsg status⟩

/-- The message of the decode error raised for a non-JSON body. -/
def jsonDecodeErrMsg (body : String) : String :=
  "Expecting value in " ++ body

/-- The decode error raised by the response-body json accessor: always a
json decode error, and since requests 2.27 also a requests exception. -/
def decodeExcOf (modernRequests : Bool) (body : String) : PyExc :=
  ⟨modernRequests, true, jsonDecodeErrMsg body⟩

/-- Outcome of one network attempt: either the post call raises, or a
response with a status and a body comes back. -/
inductive TransportOutcome where
  | raised (e : PyExc)
  | response (status : Nat) (body : String)

/-- Model of `raise_for_status`: an exception for 4xx and 5xx statuses,
nothing otherwise. -/
def raiseForStatus (status : Nat) : Option PyExc :=
  if 400 ≤ status ∧ status < 600 then some (httpExc status) else none

/-- The fixed request timeout in seconds (source line 91). -/
def requestTimeoutSeconds : Nat := 30

/-- What the client call does: returns a parsed value, or displays an
error message and returns the none value, or lets an exception matching
neither except clause escape. -/
inductive ClientOutcome where
  | success (v : JValue)
  | errored (displayedMsg : String)
  | uncaught (e : PyExc)

/-- The try body (source lines 91-93) on one transport outcome: post, then
raise for a bad status, then decode the body as JSON. -/
def clientBody (modernRequests : Bool) (t : TransportOutcome) :
    Except PyExc JValue :=
  match t with
  | TransportOutcome.raised e => Except.error e
  | TransportOutcome.response status body =>
    match raiseForStatus status with
    | some e => Except.error e
    | none =>
      match jsonLoads body with
      | some v => Except.ok v
      | none => Except.error (decodeExcOf modernRequests body)

/-- Dispatch of the two except clauses in source order (lines 94-99): the
requests clause is tried first, then the json decode clause. -/
def clientCatch (r : Except PyExc JValue) : ClientOutcome :=
  match r with
  | Except.ok v => ClientOutcome.success v
  | Except.error e =>
    if e.isRequestExc then
      ClientOutcome.errored ("API request failed: " ++ e.msg)
    else if e.isJSONDecodeExc then
      ClientOutcome.errored ("Failed to parse API response: " ++ e.msg)
    else ClientOutcome.uncaught e

/-- Model of `call_n8n_api` over a stream of per-attempt transport
outcomes, of which the single attempt consumes exactly the first. -/
def call_n8n_api (modernRequests : Bool)
    (transport : Nat → TransportOutcome) : ClientOutcome :=
  clientCatch (clientBody modernRequests (transport 0))

/-- The value the client call hands back to its caller: the outer some
means the function returned at all (no escaping exception), and the inner
option is the returned value, with the none of a caught failure. -/
def clientReturn : ClientOutcome → Option (Option JValue)
  | ClientOutcome.success v => some (some v)
  | ClientOutcome.errored _ => some none
  | ClientOutcome.uncaught _ => none

/-!
Model of the response handling in `main` (source lines 220-229): the
returned value is tested for truthiness, and only a truthy value reaches
the extractor and the display.
-/

/-- Python truthiness of a decoded JSON value. -/
def truthyJ : JValue → Bool
  | JValue.jnull => false
  | JValue.jbool b => b
  | JValue.jint n => decide (n ≠ 0)
  | JValue.jfloat m _ => decide (m ≠ 0)
  | JValue.jnan => true
  | JValue.jinf _ => true
  | JValue.jstr s => decide (s ≠ "")
  | JValue.jarr xs => !xs.isEmpty
  | JValue.jobj fs => !fs.isEmpty

/-- What the page shows after the call: the extracted objects handed to
the display when the guard passes, and whether the raw response expander
is rendered. -/
structure MainDisplay where
  results : Option JValue
  rawShown : Bool

/-- The guard and its consequences (source lines 220-229). -/
def mainAfterCall : Option JValue → MainDisplay
  | none => ⟨none, false⟩
  | some v =>
    if truthyJ v then ⟨some (extract_detected_objects v), true⟩
    else ⟨none, false⟩

/-- The pipeline tail from a client outcome: nothing at all happens when
an exception escapes the client, otherwise the returned value meets the
guard. -/
def pipelineAfterClient (o : ClientOutcome) : Option MainDisplay :=
  (clientReturn o).map mainAfterCall

/-!
Model of `encode_image_to_base64` (source lines 61-77). The imaging
library's pixel arithmetic is outside the repository, so pixel payloads
are symbolic terms recording exactly which library operations the source
applies and in which order; modes and dimensions, which the source logic
dispatches on, are concrete.
-/

/-- Symbolic pixel payload: the original pixels, or the result of a
library operation on payloads. -/
inductive ImgData where
  | source (id : Nat)
  | converted (mode : String) (d : ImgData)
  | solidCanvas (w h : Nat) (color : Nat × Nat × Nat)
  | pasted (bg : ImgData) (img : ImgData) (mask : Option ImgData)
  | lastBand (d : ImgData)

/-- An in-memory decoded image: a mode name, dimensions, and a payload. -/
structure PILImage where
  mode : String
  width : Nat
  height : Nat
  data : ImgData

/-- Library `Image.new` with an RGB mode and a fill color. -/
def imageNewRGB (w h : Nat) (color : Nat × Nat × Nat) : PILImage :=
  ⟨"RGB", w, h, ImgData.solidCanvas w h color⟩

/-- Library mode conversion: same dimensions, new mode, converted payload. -/
def imgConvert (img : PILImage) (m : String) : PILImage :=
  ⟨m, img.width, img.height, ImgData.converted m img.data⟩

/-- Library `split()[-1]`: the last band of the image as a single-band
image of the same dimensions. For the modes the source applies it to, the
last band is the alpha channel. -/
def splitLast (img : PILImage) : PILImage :=
  ⟨"L", img.width, img.height, ImgData.lastBand img.data⟩

/-- Library in-place `paste` viewed functionally: the pasted-on background
with its own mode and dimensions and a pasted payload. -/
def pasteOnto (bg img : PILImage) (mask : Option PILImage) : PILImage :=
  ⟨bg.mode, bg.width, bg.height,
    ImgData.pasted bg.data img.data (mask.map PILImage.data)⟩

/-- The mode normalization of the source (lines 63-72): transparency and
palette modes are composited onto a white canvas of the image's size, with
the palette mode converted to RGBA first and the mask taken from the
rebound image variable; every other non-RGB mode is converted to RGB. -/
def normalizeImage (image : PILImage) : PILImage :=
  if image.mode = "RGBA" ∨ image.mode = "LA" ∨ image.mode = "P" then
    let background := imageNewRGB image.width image.height (255, 255, 255)
    let image2 := if image.mode = "P" then imgConvert image "RGBA" else image
    let mask :=
      if image2.mode = "RGBA" ∨ image2.mode = "LA" then some (splitLast image2)
      else none
    pasteOnto background image2 mask
  else if ¬ (image.mode = "RGB") then imgConvert image "RGB"
  else image

/-- The bytes of a JPEG encode at a quality level, symbolic. -/
inductive JpegBytes where
  | enc (quality : Nat) (img : PILImage)

/-- A base64 text rendering of a byte payload, symbolic. -/
inductive B64Str where
  | ofBytes (b : JpegBytes)

/-- Model of `encode_image_to_base64` (source lines 61-77): normalize the
mode, serialize as JPEG at quality 95, and base64-encode the bytes. -/
def encode_image_to_base64 (image : PILImage) : B64Str :=
  B64Str.ofBytes (JpegBytes.enc 95 (normalizeImage image))

/-!
Lemmas about the extractor, shared by the claim theorems below.
-/

/-- A body that runs to a value is returned unchanged by the outer catch. -/
theorem extract_eq_of_inner_ok {v : JValue} {r : JValue}
    (h : extractInner v = Except.ok r) : extract_detected_objects v = r := by
  unfold extract_detected_objects
  rw [h]

/-- A body that raises is converted to the empty list by the outer catch. -/
theorem extract_eq_of_inner_error {v : JValue} {e : String}
    (h : extractInner v = Except.error e) :
    extract_detected_objects v = JValue.jarr [] := by
  unfold extract_detected_objects
  rw [h]

/-- A response that is not a non-empty list extracts to the empty list. -/
theorem extract_not_nonempty_list {v : JValue} (h : isNonEmptyArr v = false) :
    extract_detected_objects v = JValue.jarr [] := by
  cases v <;> try rfl
  rename_i elems
  cases elems with
  | nil => rfl
  | cons a l => simp [isNonEmptyArr] at h

/-- On a list whose first element is a dict, the body reads the output
field with an empty-string default and dispatches on it. -/
theorem extractInner_first_elem (fields : List (String × JValue))
    (rest : List JValue) :
    extractInner (JValue.jarr (JValue.jobj fields :: rest)) =
      extractFromOutput ((dictFind fields "output").getD (JValue.jstr "")) := rfl

/-- An absent output field defaults to the empty string and extracts to
the empty list. -/
theorem extract_output_default {fields : List (String × JValue)}
    {rest : List JValue} (h : dictFind fields "output" = none) :
    extract_detected_objects (JValue.jarr (JValue.jobj fields :: rest)) =
      JValue.jarr [] := by
  apply extract_eq_of_inner_ok
  rw [extractInner_first_elem, h]
  rfl

/-- A non-string output value makes the regex search raise, and the outer
catch yields the empty list. -/
theorem extract_output_nonstring {fields : List (String × JValue)}
    {rest : List JValue} {v : JValue}
    (h : dictFind fields "output" = some v) (hs : isStr v = false) :
    extract_detected_objects (JValue.jarr (JValue.jobj fields :: rest)) =
      JValue.jarr [] := by
  have h1 : extractInner (JValue.jarr (JValue.jobj fields :: rest)) =
      extractFromOutput v := by
    rw [extractInner_first_elem, h]
    rfl
  cases v <;> try exact extract_eq_of_inner_error (h1.trans rfl)
  simp [isStr] at hs

/-- A string output with no fenced block and no JSON reading extracts to
the empty list through the fallback branch's own catch. -/
theorem extract_output_unparsed {fields : List (String × JValue)}
    {rest : List JValue} {s : String}
    (h : dictFind fields "output" = some (JValue.jstr s))
    (hf : findFencedJson s = none) (hl : jsonLoads s = none) :
    extract_detected_objects (JValue.jarr (JValue.jobj fields :: rest)) =
      JValue.jarr [] := by
  apply extract_eq_of_inner_ok
  rw [extractInner_first_elem, h]
  simp only [Option.getD, extractFromOutput]
  rw [hf]
  simp only [fallbackBranch]
  rw [hl]

/-- A fenced body that parses to a dict without the detected objects field
extracts to the empty list. -/
theorem extract_fenced_no_field {fields : List (String × JValue)}
    {rest : List JValue} {s body : String} {obj : List (String × JValue)}
    (h : dictFind fields "output" = some (JValue.jstr s))
    (hf : findFencedJson s = some body)
    (hl : jsonLoads body = some (JValue.jobj obj))
    (hd : dictFind obj "detected_objects" = none) :
    extract_detected_objects (JValue.jarr (JValue.jobj fields :: rest)) =
      JValue.jarr [] := by
  apply extract_eq_of_inner_ok
  rw [extractInner_first_elem, h]
  simp only [Option.getD, extractFromOutput]
  rw [hf]
  simp only [fencedBranch]
  rw [hl]
  simp only [pyDictGet]
  rw [hd]
  rfl

/-- An unfenced output that parses to a dict without the detected objects
field extracts to the empty list. -/
theorem extract_fallback_no_field {fields : List (String × JValue)}
    {rest : List JValue} {s : String} {obj : List (String × JValue)}
    (h : dictFind fields "output" = some (JValue.jstr s))
    (hf : findFencedJson s = none)
    (hl : jsonLoads s = some (JValue.jobj obj))
    (hd : dictFind obj "detected_objects" = none) :
    extract_detected_objects (JValue.jarr (JValue.jobj fields :: rest)) =
      JValue.jarr [] := by
  apply extract_eq_of_inner_ok
  rw [extractInner_first_elem, h]
  simp only [Option.getD, extractFromOutput]
  rw [hf]
  simp only [fallbackBranch]
  rw [hl]
  simp only [pyDictGet]
  rw [hd]
  rfl

/-- C1: the Result Extractor is total: the outer catch turns every internal
failure into the empty list, and each malformed-input class of the claim
(non-list, empty list, first element without an output field or with one of
the wrong type, output string that is not JSON) extracts to the empty
list. -/
theorem extract_total_and_degrades :
    (∀ v : JValue, (∃ r, extractInner v = Except.ok r ∧
        extract_detected_objects v = r) ∨
      extract_detected_objects v = JValue.jarr []) ∧
    (∀ (v : JValue) (e : String), extractInner v = Except.error e →
      extract_detected_objects v = JValue.jarr []) ∧
    (∀ v : JValue, isNonEmptyArr v = false →
      extract_detected_objects v = JValue.jarr []) ∧
    (∀ (fields : List (String × JValue)) (rest : List JValue),
      dictFind fields "output" = none →
      extract_detected_objects (JValue.jarr (JValue.jobj fields :: rest)) =
        JValue.jarr []) ∧
    (∀ (fields : List (String × JValue)) (rest : List JValue) (v : JValue),
      dictFind fields "output" = some v → isStr v = false →
      extract_detected_objects (JValue.jarr (JValue.jobj fields :: rest)) =
        JValue.jarr []) ∧
    (∀ (fields : List (String × JValue)) (rest : List JValue) (s : String),
      dictFind fields "output" = some (JValue.jstr s) →
      findFencedJson s = none → jsonLoads s = none →
      extract_detected_objects (JValue.jarr (JValue.jobj fields :: rest)) =
        JValue.jarr []) := by
  refine ⟨?_, ?_, ?_, ?_, ?_, ?_⟩
  · intro v
    cases h : extractInner v with
    | ok r => exact Or.inl ⟨r, rfl, extract_eq_of_inner_ok h⟩
    | error e => exact Or.inr (extract_eq_of_inner_error h)
  · intro v e h
    exact extract_eq_of_inner_error h
  · intro v h
    exact extract_not_nonempty_list h
  · intro fields rest h
    exact extract_output_default h
  · intro fields rest v h hs
    exact extract_output_nonstring h hs
  · intro fields rest s h hf hl
    exact extract_output_unparsed h hf hl

/-- Witness for C1 at concrete inputs of each malformed class: a bare
string response, an empty list, an element without an output field, a
numeric output, and a non-JSON output string. -/
theorem extract_total_and_degrades_witness :
    extract_detected_objects (JValue.jstr "x") = JValue.jarr [] ∧
    extract_detected_objects (JValue.jarr []) = JValue.jarr [] ∧
    extract_detected_objects (JValue.jarr [JValue.jobj []]) = JValue.jarr [] ∧
    extract_detected_objects
      (JValue.jarr [JValue.jobj [("output", JValue.jint 7)]]) =
      JValue.jarr [] ∧
    extract_detected_objects
      (JValue.jarr [JValue.jobj [("output", JValue.jstr "no objects")]]) =
      JValue.jarr [] :=
  ⟨extract_total_and_degrades.2.2.1 (JValue.jstr "x") rfl,
   extract_total_and_degrades.2.2.1 (JValue.jarr []) rfl,
   extract_total_and_degrades.2.2.2.1 [] [] rfl,
   extract_total_and_degrades.2.2.2.2.1 [("output", JValue.jint 7)] []
     (JValue.jint 7) rfl rfl,
   extract_total_and_degrades.2.2.2.2.2 [("output", JValue.jstr "no objects")]
     [] "no objects" rfl rfl rfl⟩

/-- C2: a response whose first element's output field is exactly the
fenced string (triple backticks, the json tag, a newline, the payload, a
newline, closing backticks) extracts the fenced body's detected objects:
the cat entry with string confidence. -/
theorem extract_fenced_roundtrip :
    extract_detected_objects
      (JValue.jarr [JValue.jobj [("output", JValue.jstr
        "```json\n\x7b\"detected_objects\":[\x7b\"name\":\"cat\",\"confidence\":\"0.95\"\x7d]\x7d\n```")]]) =
      JValue.jarr [JValue.jobj
        [("name", JValue.jstr "cat"), ("confidence", JValue.jstr "0.95")]] := rfl

/-- C3: a response whose first element's output field is raw JSON text
with no fence falls back to parsing the whole string and extracts the dog
entry with numeric confidence 0.8, modelled as the decimal 8 over 10. -/
theorem extract_fallback_roundtrip :
    extract_detected_objects
      (JValue.jarr [JValue.jobj [("output", JValue.jstr
        "\x7b\"detected_objects\":[\x7b\"name\":\"dog\",\"confidence\":0.8\x7d]\x7d")]]) =
      JValue.jarr [JValue.jobj
        [("name", JValue.jstr "dog"), ("confidence", JValue.jfloat 8 1)]] := rfl

/-- C4: a plain non-JSON output string extracts to the empty list, and a
successfully parsed top-level object lacking the detected objects field
extracts to the empty list in both the fenced and the fallback branch. -/
theorem extract_missing_objects_empty :
    extract_detected_objects
      (JValue.jarr [JValue.jobj [("output", JValue.jstr "no objects here")]]) =
      JValue.jarr [] ∧
    (∀ (fields : List (String × JValue)) (rest : List JValue)
        (s body : String) (obj : List (String × JValue)),
      dictFind fields "output" = some (JValue.jstr s) →
      findFencedJson s = some body →
      jsonLoads body = some (JValue.jobj obj) →
      dictFind obj "detected_objects" = none →
      extract_detected_objects (JValue.jarr (JValue.jobj fields :: rest)) =
        JValue.jarr []) ∧
    (∀ (fields : List (String × JValue)) (rest : List JValue) (s : String)
        (obj : List (String × JValue)),
      dictFind fields "output" = some (JValue.jstr s) →
      findFencedJson s = none →
      jsonLoads s = some (JValue.jobj obj) →
      dictFind obj "detected_objects" = none →
      extract_detected_objects (JValue.jarr (JValue.jobj fields :: rest)) =
        JValue.jarr []) := by
  refine ⟨rfl, ?_, ?_⟩
  · intro fields rest s body obj h hf hl hd
    exact extract_fenced_no_field h hf hl hd
  · intro fields rest s obj h hf hl hd
    exact extract_fallback_no_field h hf hl hd

/-- Witness for C4: a fenced output and an unfenced output, each parsing
to a dict without the detected objects field, both extract to the empty
list. -/
theorem extract_missing_objects_empty_witness :
    extract_detected_objects
      (JValue.jarr [JValue.jobj [("output", JValue.jstr
        "```json\n\x7b\"a\":1\x7d\n```")]]) = JValue.jarr [] ∧
    extract_detected_objects
      (JValue.jarr [JValue.jobj [("output", JValue.jstr "\x7b\"a\":1\x7d")]]) =
      JValue.jarr [] :=
  ⟨extract_missing_objects_empty.2.1
      [("output", JValue.jstr "```json\n\x7b\"a\":1\x7d\n```")] []
      "```json\n\x7b\"a\":1\x7d\n```" "\x7b\"a\":1\x7d" [("a", JValue.jint 1)]
      rfl rfl rfl rfl,
   extract_missing_objects_empty.2.2
      [("output", JValue.jstr "\x7b\"a\":1\x7d")] [] "\x7b\"a\":1\x7d"
      [("a", JValue.jint 1)] rfl rfl rfl rfl⟩

/-- C5: a response that is not a non-empty list extracts to the empty
list; on a non-empty list the first element's output field is read with an
empty-string default, an absent field behaving as the empty string, and a
present non-string field giving the same empty-list result as an absent
one. -/
theorem extract_response_shape_guard :
    (∀ v : JValue, isNonEmptyArr v = false →
      extract_detected_objects v = JValue.jarr []) ∧
    (∀ (fields : List (String × JValue)) (rest : List JValue),
      dictFind fields "output" = none →
      extractInner (JValue.jarr (JValue.jobj fields :: rest)) =
        extractFromOutput (JValue.jstr "") ∧
      extract_detected_objects (JValue.jarr (JValue.jobj fields :: rest)) =
        JValue.jarr []) ∧
    (∀ (fields : List (String × JValue)) (rest : List JValue) (v : JValue),
      dictFind fields "output" = some v → isStr v = false →
      extract_detected_objects (JValue.jarr (JValue.jobj fields :: rest)) =
        JValue.jarr []) := by
  refine ⟨?_, ?_, ?_⟩
  · intro v h
    exact extract_not_nonempty_list h
  · intro fields rest h
    constructor
    · rw [extractInner_first_elem, h]
      rfl
    · exact extract_output_default h
  · intro fields rest v h hs
    exact extract_output_nonstring h hs

/-- Witness for C5: a dict response and an empty list extract to the empty
list, an element with no output field behaves as an empty-string output,
and a boolean output gives the same empty result. -/
theorem extract_response_shape_guard_witness :
    extract_detected_objects (JValue.jobj [("output", JValue.jstr "x")]) =
      JValue.jarr [] ∧
    extract_detected_objects (JValue.jarr [JValue.jobj [("k", JValue.jint 1)]]) =
      JValue.jarr [] ∧
    extract_detected_objects
      (JValue.jarr [JValue.jobj [("output", JValue.jbool true)]]) =
      JValue.jarr [] :=
  ⟨extract_response_shape_guard.1 (JValue.jobj [("output", JValue.jstr "x")]) rfl,
   (extract_response_shape_guard.2.1 [("k", JValue.jint 1)] [] rfl).2,
   extract_response_shape_guard.2.2 [("output", JValue.jbool true)] []
     (JValue.jbool true) rfl rfl⟩

/-- C6, failing-input evaluation: on a 2xx response whose body is not
JSON, the decode error raised by the body accessor is dispatched by class.
Under the requests library since 2.27 that error is itself a requests
exception, so the first except clause catches it and the client reports
the network-style message, not the parse-failure message; only under the
legacy library does the distinct parse-failure clause fire. In both eras
the client returns the none value. -/
theorem client_decode_error_masked_by_requests_clause :
    jsonLoads "not json" = none ∧
    call_n8n_api true (fun _ => TransportOutcome.response 200 "not json") =
      ClientOutcome.errored
        ("API request failed: " ++ jsonDecodeErrMsg "not json") ∧
    call_n8n_api false (fun _ => TransportOutcome.response 200 "not json") =
      ClientOutcome.errored
        ("Failed to parse API response: " ++ jsonDecodeErrMsg "not json") ∧
    clientReturn
      (call_n8n_api true (fun _ => TransportOutcome.response 200 "not json")) =
      some none ∧
    clientReturn
      (call_n8n_api false (fun _ => TransportOutcome.response 200 "not json")) =
      some none :=
  ⟨rfl, rfl, rfl, rfl, rfl⟩

/-- C7: every raised transport exception (connection refused, timeout,
DNS failure — all requests exceptions) and every non-2xx status raised by
the status check is caught by the first except clause, the client reports
the network message and returns the none value, the pipeline shows no
detection results, the client consumes only the first attempt of the
transport stream, and the fixed timeout is 30 seconds. -/
theorem client_network_error_fail_fast :
    (∀ (modernRequests : Bool) (e : PyExc), e.isRequestExc = true →
      call_n8n_api modernRequests (fun _ => TransportOutcome.raised e) =
        ClientOutcome.errored ("API request failed: " ++ e.msg) ∧
      pipelineAfterClient
        (call_n8n_api modernRequests (fun _ => TransportOutcome.raised e)) =
        some ⟨none, false⟩) ∧
    (∀ m, (connectionExc m).isRequestExc = true) ∧
    (∀ m, (timeoutExc m).isRequestExc = true) ∧
    (∀ s, (httpExc s).isRequestExc = true) ∧
    (∀ (modernRequests : Bool) (status : Nat) (body : String),
      400 ≤ status → status < 600 →
      call_n8n_api modernRequests
          (fun _ => TransportOutcome.response status body) =
        ClientOutcome.errored
          ("API request failed: " ++ httpStatusExcMsg status) ∧
      pipelineAfterClient
        (call_n8n_api modernRequests
          (fun _ => TransportOutcome.response status body)) =
        some ⟨none, false⟩) ∧
    (∀ (modernRequests : Bool) (t1 t2 : Nat → TransportOutcome),
      t1 0 = t2 0 →
      call_n8n_api modernRequests t1 = call_n8n_api modernRequests t2) ∧
    requestTimeoutSeconds = 30 := by
  refine ⟨?_, fun m => rfl, fun m => rfl, fun s => rfl, ?_, ?_, rfl⟩
  · intro modernRequests e he
    have h1 : call_n8n_api modernRequests (fun _ => TransportOutcome.raised e) =
        ClientOutcome.errored ("API request failed: " ++ e.msg) := by
      simp [call_n8n_api, clientBody, clientCatch, he]
    exact ⟨h1, by rw [h1]; rfl⟩
  · intro modernRequests status body h1 h2
    have hr : raiseForStatus status = some (httpExc status) := by
      simp [raiseForStatus, h1, h2]
    have hc : call_n8n_api modernRequests
        (fun _ => TransportOutcome.response status body) =
        ClientOutcome.errored
          ("API request failed: " ++ httpStatusExcMsg status) := by
      simp [call_n8n_api, clientBody, hr, clientCatch, httpExc]
    exact ⟨hc, by rw [hc]; rfl⟩
  · intro modernRequests t1 t2 h
    unfold call_n8n_api
    rw [h]

/-- Witness for C7 at concrete inputs: a raised connection error with a
concrete message, and a 404 status response. -/
theorem client_network_error_fail_fast_witness :
    call_n8n_api true (fun _ => TransportOutcome.raised
        (connectionExc "connection refused")) =
      ClientOutcome.errored ("API request failed: " ++ "connection refused") ∧
    call_n8n_api false (fun _ => TransportOutcome.response 404 "ignored") =
      ClientOutcome.errored
        ("API request failed: " ++ httpStatusExcMsg 404) ∧
    pipelineAfterClient
      (call_n8n_api false (fun _ => TransportOutcome.response 404 "ignored")) =
      some ⟨none, false⟩ :=
  ⟨(client_network_error_fail_fast.1 true
      (connectionExc "connection refused") rfl).1,
   (client_network_error_fail_fast.2.2.2.2.1 false 404 "ignored"
      (by decide) (by decide)).1,
   (client_network_error_fail_fast.2.2.2.2.1 false 404 "ignored"
      (by decide) (by decide)).2⟩

/-- C10: the guard in `main` tests the client's returned value for Python
truthiness, so a successful response decoding to a falsy value (empty
list, empty dict, null, zero, false, or the empty string) is treated
exactly like the none of a client failure: the extractor and the display
never run and no results section is shown. -/
theorem main_guard_drops_falsy_success :
    (∀ v : JValue, truthyJ v = false →
      mainAfterCall (some v) = mainAfterCall none) ∧
    mainAfterCall none = ⟨none, false⟩ ∧
    (∀ (modernRequests : Bool) (body : String) (v : JValue),
      jsonLoads body = some v →
      call_n8n_api modernRequests
          (fun _ => TransportOutcome.response 200 body) =
        ClientOutcome.success v ∧
      pipelineAfterClient
        (call_n8n_api modernRequests
          (fun _ => TransportOutcome.response 200 body)) =
        some (mainAfterCall (some v))) ∧
    (∀ m, pipelineAfterClient (ClientOutcome.errored m) =
      some (mainAfterCall none)) ∧
    (truthyJ (JValue.jarr []) = false ∧ truthyJ (JValue.jobj []) = false ∧
      truthyJ JValue.jnull = false ∧ truthyJ (JValue.jint 0) = false ∧
      truthyJ (JValue.jbool false) = false ∧
      truthyJ (JValue.jstr "") = false) := by
  refine ⟨?_, rfl, ?_, fun m => rfl, by decide, by decide, rfl, by decide,
    rfl, by decide⟩
  · intro v h
    simp [mainAfterCall, h]
  · intro modernRequests body v h
    have hc : call_n8n_api modernRequests
        (fun _ => TransportOutcome.response 200 body) =
        ClientOutcome.success v := by
      simp [call_n8n_api, clientBody, raiseForStatus, clientCatch, h]
    exact ⟨hc, by rw [hc]; rfl⟩

/-- Witness for C10: an empty-list body is valid JSON, the client succeeds
on it, and the page shows neither results nor the raw-response expander,
exactly as after a client failure. -/
theorem main_guard_drops_falsy_success_witness :
    mainAfterCall (some (JValue.jarr [])) = mainAfterCall none ∧
    call_n8n_api true (fun _ => TransportOutcome.response 200 "[]") =
      ClientOutcome.success (JValue.jarr []) ∧
    pipelineAfterClient
      (call_n8n_api true (fun _ => TransportOutcome.response 200 "[]")) =
      some (mainAfterCall (some (JValue.jarr []))) :=
  ⟨main_guard_drops_falsy_success.1 (JValue.jarr []) rfl,
   (main_guard_drops_falsy_success.2.2.1 true "[]" (JValue.jarr []) rfl).1,
   (main_guard_drops_falsy_success.2.2.1 true "[]" (JValue.jarr []) rfl).2⟩


/-- On a transparency-carrying mode the normalization is the white-canvas
paste with the image's own last band as mask. -/
theorem normalize_alpha_modes (m : String) (w h : Nat) (d : ImgData)
    (hm : m = "RGBA" ∨ m = "LA") :
    normalizeImage ⟨m, w, h, d⟩ =
      pasteOnto (imageNewRGB w h (255, 255, 255)) ⟨m, w, h, d⟩
        (some (splitLast ⟨m, w, h, d⟩)) := by
  rcases hm with rfl | rfl <;> rfl

/-- On the palette mode the normalization converts to RGBA first, then
pastes with the converted image's last band as mask. -/
theorem normalize_palette_mode (w h : Nat) (d : ImgData) :
    normalizeImage ⟨"P", w, h, d⟩ =
      pasteOnto (imageNewRGB w h (255, 255, 255))
        (imgConvert ⟨"P", w, h, d⟩ "RGBA")
        (some (splitLast (imgConvert ⟨"P", w, h, d⟩ "RGBA"))) := rfl

/-- On any other non-RGB mode the normalization is a plain conversion to
RGB. -/
theorem normalize_other_modes (m : String) (w h : Nat) (d : ImgData)
    (h1 : m ≠ "RGBA") (h2 : m ≠ "LA") (h3 : m ≠ "P") (h4 : m ≠ "RGB") :
    normalizeImage ⟨m, w, h, d⟩ = imgConvert ⟨m, w, h, d⟩ "RGB" := by
  by_cases hc : m = "RGBA" ∨ m = "LA" ∨ m = "P"
  · exact absurd hc (fun x => Or.elim x h1 (fun y => Or.elim y h2 h3))
  · rw [normalizeImage, if_neg hc, if_pos h4]

/-- An RGB image passes through the normalization unchanged. -/
theorem normalize_rgb_mode (w h : Nat) (d : ImgData) :
    normalizeImage ⟨"RGB", w, h, d⟩ = ⟨"RGB", w, h, d⟩ := rfl

/-- C8: the encoder emits the base64 of a quality-95 JPEG of the
normalized image; the normalized image is always in the RGB mode with the
input's dimensions; transparency-carrying and palette modes are pasted
onto a white canvas of the same size with the image's own last band as
mask, the palette mode after conversion to RGBA; any other non-RGB mode
is converted to RGB, and an RGB input passes through unchanged. -/
theorem encode_forces_three_channel :
    (∀ image : PILImage, encode_image_to_base64 image =
      B64Str.ofBytes (JpegBytes.enc 95 (normalizeImage image))) ∧
    (∀ image : PILImage, (normalizeImage image).mode = "RGB") ∧
    (∀ image : PILImage, (normalizeImage image).width = image.width ∧
      (normalizeImage image).height = image.height) ∧
    (∀ image : PILImage, image.mode = "RGBA" ∨ image.mode = "LA" →
      normalizeImage image =
        pasteOnto (imageNewRGB image.width image.height (255, 255, 255))
          image (some (splitLast image))) ∧
    (∀ image : PILImage, image.mode = "P" →
      normalizeImage image =
        pasteOnto (imageNewRGB image.width image.height (255, 255, 255))
          (imgConvert image "RGBA")
          (some (splitLast (imgConvert image "RGBA")))) ∧
    (∀ image : PILImage, image.mode ≠ "RGBA" → image.mode ≠ "LA" →
      image.mode ≠ "P" → image.mode ≠ "RGB" →
      normalizeImage image = imgConvert image "RGB") ∧
    (∀ image : PILImage, image.mode = "RGB" → normalizeImage image = image) := by
  refine ⟨fun image => rfl, ?_, ?_, ?_, ?_, ?_, ?_⟩
  · intro image
    obtain ⟨m, w, h, d⟩ := image
    by_cases h1 : m = "RGBA"
    · subst h1; rfl
    by_cases h2 : m = "LA"
    · subst h2; rfl
    by_cases h3 : m = "P"
    · subst h3; rfl
    by_cases h4 : m = "RGB"
    · subst h4; rfl
    rw [normalize_other_modes m w h d h1 h2 h3 h4]
    rfl
  · intro image
    obtain ⟨m, w, h, d⟩ := image
    by_cases h1 : m = "RGBA"
    · subst h1; exact ⟨rfl, rfl⟩
    by_cases h2 : m = "LA"
    · subst h2; exact ⟨rfl, rfl⟩
    by_cases h3 : m = "P"
    · subst h3; exact ⟨rfl, rfl⟩
    by_cases h4 : m = "RGB"
    · subst h4; exact ⟨rfl, rfl⟩
    rw [normalize_other_modes m w h d h1 h2 h3 h4]
    exact ⟨rfl, rfl⟩
  · intro image hm
    obtain ⟨m, w, h, d⟩ := image
    exact normalize_alpha_modes m w h d hm
  · intro image hm
    obtain ⟨m, w, h, d⟩ := image
    have hm2 : m = "P" := hm
    subst hm2
    exact normalize_palette_mode w h d
  · intro image h1 h2 h3 h4
    obtain ⟨m, w, h, d⟩ := image
    exact normalize_other_modes m w h d h1 h2 h3 h4
  · intro image hm
    obtain ⟨m, w, h, d⟩ := image
    have hm2 : m = "RGB" := hm
    subst hm2
    exact normalize_rgb_mode w h d

/-- Witness for C8 at concrete images: an RGBA image is composited onto
the white canvas with its own last band as mask, a palette image is
converted to RGBA first, a grayscale image is converted to RGB, and an
RGB image passes through. -/
theorem encode_forces_three_channel_witness :
    normalizeImage ⟨"RGBA", 2, 3, ImgData.source 0⟩ =
      pasteOnto (imageNewRGB 2 3 (255, 255, 255)) ⟨"RGBA", 2, 3, ImgData.source 0⟩
        (some (splitLast ⟨"RGBA", 2, 3, ImgData.source 0⟩)) ∧
    normalizeImage ⟨"P", 2, 3, ImgData.source 1⟩ =
      pasteOnto (imageNewRGB 2 3 (255, 255, 255))
        (imgConvert ⟨"P", 2, 3, ImgData.source 1⟩ "RGBA")
        (some (splitLast (imgConvert ⟨"P", 2, 3, ImgData.source 1⟩ "RGBA"))) ∧
    normalizeImage ⟨"L", 2, 3, ImgData.source 2⟩ =
      imgConvert ⟨"L", 2, 3, ImgData.source 2⟩ "RGB" ∧
    normalizeImage ⟨"RGB", 2, 3, ImgData.source 3⟩ =
      ⟨"RGB", 2, 3, ImgData.source 3⟩ :=
  ⟨encode_forces_three_channel.2.2.2.1 ⟨"RGBA", 2, 3, ImgData.source 0⟩
      (Or.inl rfl),
   encode_forces_three_channel.2.2.2.2.1 ⟨"P", 2, 3, ImgData.source 1⟩ rfl,
   encode_forces_three_channel.2.2.2.2.2.1 ⟨"L", 2, 3, ImgData.source 2⟩
      (by decide) (by decide) (by decide) (by decide),
   encode_forces_three_channel.2.2.2.2.2.2 ⟨"RGB", 2, 3, ImgData.source 3⟩ rfl⟩

/-- C9: the encoder is modelled as a pure function of the input image, so
two calls on equal inputs produce byte-identical base64 output; the model
threads no state, matching the source function's absence of writes to its
input or to anything else. -/
theorem encode_deterministic :
    ∀ img1 img2 : PILImage, img1 = img2 →
      encode_image_to_base64 img1 = encode_image_to_base64 img2 := by
  intro img1 img2 h
  rw [h]

/-- Witness for C9 at a concrete image. -/
theorem encode_deterministic_witness :
    encode_image_to_base64 ⟨"RGB", 4, 4, ImgData.source 9⟩ =
      encode_image_to_base64 ⟨"RGB", 4, 4, ImgData.source 9⟩ :=
  encode_deterministic ⟨"RGB", 4, 4, ImgData.source 9⟩
    ⟨"RGB", 4, 4, ImgData.source 9⟩ rfl
